import Mathlib

/-!
Shallow embedding of the Digi-Museum web application (`src/app.py`) and proofs
about its quiz lifecycle, review ledger, wishlist tracker and identity service.

Conventions of the embedding:
* Python dictionaries read through `request.form.get` become association lists
  `List (String × String)` queried with `List.lookup` (absent key ↦ `none`).
* The Flask session becomes an explicit `Session` record threaded through the
  handlers; `session.pop` becomes a field update.
* The external Gemini collaborator is modelled by a `GenOutcome` parameter that
  enumerates the observable behaviours of the two `try` blocks in
  `generate_quiz`: client initialisation raising, the content call raising,
  `json.loads` raising, or a successfully parsed quiz object.
* SQLite tables become Lean lists of row records kept in insertion (rowid)
  order; `CURRENT_TIMESTAMP` becomes an explicit clock argument.
-/

/-- One multiple-choice question as produced by the generator or the fallback
(`question` / `options` / `answer` keys of the JSON schema). -/
structure Question where
  question : String
  options : List String
  answer : String
deriving DecidableEq, Repr

/-- A quiz object as returned by `generate_quiz`: `quiz_title` and
`questions`. -/
structure QuizData where
  quiz_title : String
  questions : List Question
deriving DecidableEq, Repr

/-- The quiz dictionary as stored in `session['current_quiz']`: the generated
quiz plus the `museum_key` tag added by the GET handler (app.py line 772). -/
structure StoredQuiz where
  quiz_title : String
  questions : List Question
  museum_key : String
deriving DecidableEq, Repr

/-- The Flask session: the `'user'` entry set at login and the transient
`'current_quiz'` entry holding at most one quiz attempt. -/
structure Session where
  user : Option String
  current_quiz : Option StoredQuiz
deriving DecidableEq, Repr

/-- A `flash(message, category)` notice. -/
structure FlashMsg where
  msg : String
  category : String
deriving DecidableEq, Repr

/-- Static catalog entry.  Only the `name` and `city` fields are embedded:
they are the only museum attributes that the handlers under verification read
(charges, hours and exhibit lists feed the HTML templates only). -/
structure MuseumInfo where
  name : String
  city : String
deriving DecidableEq, Repr

/-- The static in-memory museum catalog `MUSEUM_DATA` (app.py lines 152-394),
as an association list from URL key to catalog entry, in source order. -/
def MUSEUM_DATA : List (String × MuseumInfo) :=
  [ ("national_museum_new_delhi", ⟨"National Museum", "New Delhi"⟩),
    ("indian_museum_kolkata", ⟨"Indian Museum", "Kolkata"⟩),
    ("csmvs_mumbai", ⟨"Chhatrapati Shivaji Maharaj Vastu Sangrahalaya", "Mumbai"⟩),
    ("salar_jung_museum_hyderabad", ⟨"Salar Jung Museum", "Hyderabad"⟩),
    ("bihar_museum_patna", ⟨"Bihar Museum", "Patna"⟩),
    ("albert_hall_museum_jaipur", ⟨"Albert Hall Museum", "Jaipur"⟩),
    ("calico_museum_of_textiles", ⟨"Calico Museum of Textiles", "Ahmedabad"⟩),
    ("national_rail_museum_new_delhi", ⟨"National Rail Museum", "New Delhi"⟩),
    ("government_museum_chennai", ⟨"Government Museum", "Chennai"⟩),
    ("national_gallery_of_modern_art_new_delhi", ⟨"National Gallery of Modern Art (NGMA)", "New Delhi"⟩),
    ("shankar_international_dolls_museum", ⟨"Shankar\x27s International Dolls Museum", "New Delhi"⟩),
    ("virasat_e_khalsa", ⟨"Virasat-e-Khalsa", "Anandpur Sahib"⟩),
    ("napier_museum_thiruvananthapuram", ⟨"Napier Museum", "Thiruvananthapuram"⟩),
    ("govt_museum_art_gallery_chandigarh", ⟨"Government Museum & Art Gallery", "Chandigarh"⟩),
    ("visvesvaraya_industrial_and_technological_museum", ⟨"Visvesvaraya Industrial and Technological Museum", "Bengaluru"⟩) ]

/-- Observable behaviours of the external Gemini collaborator inside
`generate_quiz` (app.py lines 89-114): `genai.Client()` raising,
`generate_content` raising, `json.loads` raising on the returned text, or a
successfully parsed quiz dictionary. -/
inductive GenOutcome where
  | clientInitFailure
  | callFailure
  | malformedJSON
  | ok (data : QuizData)
deriving DecidableEq, Repr

/-- The hard-coded fallback quiz built in the `except` branch of
`generate_quiz` (app.py lines 118-147). -/
def fallback_quiz (museum_name museum_city : String) : QuizData :=
  { quiz_title := "Fallback Quiz on " ++ museum_name,
    questions :=
      [ { question := "Which city is the " ++ museum_name ++ " located in?",
          options := [museum_city, "Mumbai", "Kolkata", "Delhi"],
          answer := museum_city },
        { question := "What is the primary purpose of a museum?",
          options := ["Entertainment", "Education and Preservation", "Shopping", "Sports"],
          answer := "Education and Preservation" },
        { question := "In which continent is India located?",
          options := ["Europe", "Africa", "Asia", "South America"],
          answer := "Asia" },
        { question := "The famous \x27Dancing Girl\x27 statuette belongs to which civilization?",
          options := ["Egyptian", "Mesopotamian", "Indus Valley", "Roman"],
          answer := "Indus Valley" },
        { question := "The term \x27Mughal\x27 refers to a dynasty from which country?",
          options := ["China", "India", "Turkey", "Mongolia"],
          answer := "Mongolia" } ] }

/-- Embedding of `generate_quiz` (app.py lines 84-147).  `None` is returned
only when `genai.Client()` raises; any exception inside the second `try`
(content call raising, `json.loads` raising, or the explicit `ValueError` when
the parsed quiz does not have exactly 5 questions) yields the fallback quiz. -/
def generate_quiz (museum_name museum_city : String) (gen : GenOutcome) : Option QuizData :=
  match gen with
  | .clientInitFailure => none
  | .callFailure => some (fallback_quiz museum_name museum_city)
  | .malformedJSON => some (fallback_quiz museum_name museum_city)
  | .ok data =>
      if data.questions.length ≠ 5 then some (fallback_quiz museum_name museum_city)
      else some data

/-- One entry of the `results` list built by the scoring loop
(app.py lines 740-746). -/
structure ResultRecord where
  question : String
  user_answer : Option String
  correct_answer : String
  is_correct : Bool
  options : List String
deriving DecidableEq, Repr

/-- The body of the scoring loop for index `i` and question `q`
(app.py lines 730-746): `request.form.get` on key `q_i` and exact string
comparison of the submitted text with the stored answer (`None` never equals a
string). -/
def result_record (i : Nat) (q : Question) (form : List (String × String)) : ResultRecord :=
  let user_answer := form.lookup ("q_" ++ toString i)
  { question := q.question,
    user_answer := user_answer,
    correct_answer := q.answer,
    is_correct := user_answer == some q.answer,
    options := q.options }

/-- The full `results` list of the scoring loop, one record per question in
original order. -/
def quiz_results (questions : List Question) (form : List (String × String)) : List ResultRecord :=
  questions.enum.map (fun p => result_record p.1 p.2 form)

/-- The `score` accumulator of the scoring loop (`score += 1` whenever
`is_correct`). -/
def quiz_score (questions : List Question) (form : List (String × String)) : Nat :=
  (quiz_results questions form).foldl (fun acc r => if r.is_correct then acc + 1 else acc) 0

/-- Responses produced by the `/quiz/<museum_key>` handler: a redirect to
`quiz_selection` carrying the accumulated flash notices, the rendered quiz
form, or the rendered score page. -/
inductive QuizResponse where
  | redirect_quiz_selection (flashes : List FlashMsg)
  | render_quiz_form (museum_name quiz_title : String) (questions : List Question)
      (museum_key : String) (flashes : List FlashMsg)
  | render_quiz_results (museum_name quiz_title : String) (score : Nat)
      (total_questions : Nat) (results : List ResultRecord) (museum_key : String)
deriving DecidableEq, Repr

/-- Embedding of the GET branch of the `quiz` route (app.py lines 707-781,
generation path): look up the museum, flash the generation notice, call
`generate_quiz`, bail out with an error flash when it yields `None` or an
empty question list, and otherwise tag the quiz with the museum key and store
it in `session['current_quiz']`, overwriting any previous value. -/
def quizGet (museum_key : String) (gen : GenOutcome) (s : Session) : Session × QuizResponse :=
  match MUSEUM_DATA.lookup museum_key with
  | none => (s, .redirect_quiz_selection [⟨"Museum not found.", "error"⟩])
  | some md =>
      let genFlash : FlashMsg := ⟨"Generating a new AI Quiz for " ++ md.name ++ "...", "info"⟩
      match generate_quiz md.name md.city gen with
      | none =>
          (s, .redirect_quiz_selection [genFlash, ⟨"Could not generate quiz. Please try again.", "error"⟩])
      | some qd =>
          if qd.questions.isEmpty then
            (s, .redirect_quiz_selection [genFlash, ⟨"Could not generate quiz. Please try again.", "error"⟩])
          else
            ({ s with current_quiz := some ⟨qd.quiz_title, qd.questions, museum_key⟩ },
             .render_quiz_form md.name qd.quiz_title qd.questions museum_key [genFlash])

/-- Embedding of the POST branch of the `quiz` route (app.py lines 717-758,
scoring path): look up the museum, reject with the session-mismatch notice
when no quiz is stored or the stored quiz is tagged with a different museum
key, and otherwise score the submission, clear `session['current_quiz']` and
render the results page. -/
def quizPost (museum_key : String) (form : List (String × String)) (s : Session) :
    Session × QuizResponse :=
  match MUSEUM_DATA.lookup museum_key with
  | none => (s, .redirect_quiz_selection [⟨"Museum not found.", "error"⟩])
  | some md =>
      match s.current_quiz with
      | none =>
          (s, .redirect_quiz_selection
            [⟨"Quiz session expired or mismatched. Please generate a new quiz.", "error"⟩])
      | some sq =>
          if sq.museum_key ≠ museum_key then
            (s, .redirect_quiz_selection
              [⟨"Quiz session expired or mismatched. Please generate a new quiz.", "error"⟩])
          else
            ({ s with current_quiz := none },
             .render_quiz_results md.name sq.quiz_title (quiz_score sq.questions form)
               sq.questions.length (quiz_results sq.questions form) museum_key)

/-- Embedding of the `logout` route (app.py lines 589-593): pop the `'user'`
entry (and nothing else) from the session, flash the logout notice and
redirect to login. -/
def logout (s : Session) : Session × FlashMsg :=
  ({ s with user := none }, ⟨"You have been logged out", "success"⟩)

/-- A row of the `users` table (app.py lines 408-416). -/
structure UserRow where
  id : Nat
  username : String
  email : String
  password_hash : String
deriving DecidableEq, Repr

/-- The `users` table in rowid (insertion) order. -/
abbrev UsersDB := List UserRow

/-- The next `AUTOINCREMENT` id for the `users` table. -/
def next_user_id (db : UsersDB) : Nat :=
  (db.map (fun u => u.id)).foldl max 0 + 1

/-- Embedding of `get_user` (app.py lines 446-453): `SELECT * FROM users WHERE
username = ?` followed by `fetchone`, i.e. the first row with that username. -/
def get_user (db : UsersDB) (username : String) : Option UserRow :=
  db.find? (fun u => u.username == username)

/-- Embedding of `user_exists` (app.py lines 466-467). -/
def user_exists (db : UsersDB) (username : String) : Bool :=
  (get_user db username).isSome

/-- Embedding of `create_user` (app.py lines 455-464): the `INSERT` appends a
fresh row, and the `UNIQUE` constraint on `username` makes SQLite raise
`sqlite3.IntegrityError` (here `Except.error ()`) whenever a row with the same
username already exists, leaving the table unchanged. -/
def create_user (db : UsersDB) (username email password_hash : String) :
    Except Unit UsersDB :=
  if db.any (fun u => u.username == username) then Except.error ()
  else Except.ok (db ++ [{ id := next_user_id db, username := username,
                           email := email, password_hash := password_hash }])

/-- Model of Python's `str.strip()` with no argument: remove leading and
trailing whitespace.  (Python strips all Unicode whitespace; the ASCII
whitespace characters are modelled.) -/
def pyStrip (s : String) : String :=
  String.mk (((s.data.dropWhile Char.isWhitespace).reverse.dropWhile Char.isWhitespace).reverse)

/-- Modelled from the spec: `werkzeug.security.generate_password_hash` is an
external library collaborator (not part of this repository); the spec only
requires that a salted hash of the plaintext, not the plaintext itself, is
what `create_user` receives.  It is abstracted as an uninterpreted tagging
function — no claim under verification depends on its cryptographic
properties. -/
def generate_password_hash (password : String) : String :=
  "pbkdf2-sha256$" ++ password

/-- Outcome of the `signup` POST handler: re-render the signup form with a
flash notice, or redirect to login after a successful account creation. -/
inductive SignupOutcome where
  | rerender (f : FlashMsg)
  | redirect_login (f : FlashMsg)
deriving DecidableEq, Repr

/-- Embedding of the POST branch of the `signup` route (app.py lines 562-587).
The handler reads the `users` table twice — once in the pre-emptive
`user_exists` check and once inside `create_user`'s uniqueness constraint.  To
represent the race discussed in the spec (a concurrent signup committing
between the two reads), the two observations are separate parameters:
`db_check` is the table as seen by `user_exists`, `db_insert` the table at the
moment the `INSERT` executes.  A sequential run has `db_check = db_insert`.
The returned table is the table after the handler finishes. -/
def signup (db_check db_insert : UsersDB) (username email password confirm_password : String) :
    UsersDB × SignupOutcome :=
  let username := pyStrip username
  let email := pyStrip email
  if username = "" ∨ email = "" ∨ password = "" then
    (db_insert, .rerender ⟨"Please complete all fields", "error"⟩)
  else if user_exists db_check username then
    (db_insert, .rerender ⟨"Username already exists", "error"⟩)
  else if password ≠ confirm_password then
    (db_insert, .rerender ⟨"Passwords do not match", "error"⟩)
  else if password.length < 6 then
    (db_insert, .rerender ⟨"Password must be at least 6 characters", "error"⟩)
  else
    match create_user db_insert username email (generate_password_hash password) with
    | .ok db' => (db', .redirect_login ⟨"Account created successfully! Please login.", "success"⟩)
    | .error _ => (db_insert, .rerender ⟨"Username already exists", "error"⟩)

/-- A row of the `reviews` table (app.py lines 417-427). -/
structure ReviewRow where
  id : Nat
  user_id : Nat
  museum_key : String
  rating : Int
  review_text : String
  timestamp : Nat
deriving DecidableEq, Repr

/-- The `reviews` table in rowid (insertion) order. -/
abbrev ReviewsDB := List ReviewRow

/-- The next `AUTOINCREMENT` id for the `reviews` table. -/
def next_review_id (db : ReviewsDB) : Nat :=
  (db.map (fun r => r.id)).foldl max 0 + 1

/-- Embedding of `add_museum_review` (app.py lines 488-497): the `INSERT`
appends one row; the `timestamp` column defaults to `CURRENT_TIMESTAMP`,
modelled by the explicit clock argument `now`. -/
def add_museum_review (db : ReviewsDB) (now : Nat) (user_id : Nat) (museum_key : String)
    (rating : Int) (review_text : String) : ReviewsDB :=
  db ++ [{ id := next_review_id db, user_id := user_id, museum_key := museum_key,
           rating := rating, review_text := review_text, timestamp := now }]

/-- Whether a character list is a valid Python integer-literal digit run after
the first digit: digits, with single underscores allowed only between two
digits. -/
def pyDigitsBody : List Char → Bool
  | [] => true
  | '_' :: c :: cs => c.isDigit && pyDigitsBody cs
  | ['_'] => false
  | c :: cs => c.isDigit && pyDigitsBody cs

/-- Whether a character list is a valid (unsigned) Python integer-literal
digit run: nonempty, starting with a digit. -/
def pyDigits : List Char → Bool
  | [] => false
  | c :: cs => c.isDigit && pyDigitsBody cs

/-- Numeric value of a digit run once underscores are removed. -/
def digitsToNat (l : List Char) : Nat :=
  (l.filter (fun c => c ≠ '_')).foldl (fun acc c => 10 * acc + (c.toNat - 48)) 0

/-- Model of Python's `int(s)` on a string: strip surrounding whitespace,
allow one optional sign, then a digit run with single underscores between
digits; `none` models `int` raising `ValueError`.  (Non-ASCII digit
characters, accepted by CPython, are not modelled.) -/
def pythonInt? (s : String) : Option Int :=
  match (pyStrip s).data with
  | '+' :: rest => if pyDigits rest then some (Int.ofNat (digitsToNat rest)) else none
  | '-' :: rest => if pyDigits rest then some (-(Int.ofNat (digitsToNat rest))) else none
  | rest => if pyDigits rest then some (Int.ofNat (digitsToNat rest)) else none

/-- The rating computation of the review branch (app.py lines 670-673):
`int(request.form.get('rating') or 0)` with `ValueError` caught and mapped to
`0`.  An absent field gives `None or 0 = 0`; an empty string is falsy and also
gives `0`; any other unparseable string raises `ValueError`, caught to `0`. -/
def form_rating (rating_field : Option String) : Int :=
  match rating_field with
  | none => 0
  | some s =>
      if s = "" then 0
      else match pythonInt? s with
           | some n => n
           | none => 0

/-- Embedding of the review branch of the `museum_profile` POST handler
(app.py lines 668-679), entered when the `review_text` field is present:
compute the rating, then either append the review row and flash success, or
reject with the invalid-review notice and leave the table untouched. -/
def museum_profile_post_review (db : ReviewsDB) (now : Nat) (user_id : Nat)
    (museum_key : String) (review_text : String) (rating_field : Option String) :
    ReviewsDB × FlashMsg :=
  let rating := form_rating rating_field
  if review_text ≠ "" ∧ 1 ≤ rating ∧ rating ≤ 5 then
    (add_museum_review db now user_id museum_key rating review_text,
     ⟨"Your review has been posted!", "success"⟩)
  else
    (db, ⟨"Invalid review or rating submitted.", "error"⟩)

/-- A row of the result set of `get_museum_reviews`: the selected review
columns joined with the reviewing user's username. -/
structure ReviewDisplay where
  rating : Int
  review_text : String
  timestamp : Nat
  username : String
deriving DecidableEq, Repr

/-- The `JOIN users u ON r.user_id = u.id` step for one review row: `none`
when no user row matches (an inner join drops such a review). -/
def join_username (udb : UsersDB) (r : ReviewRow) : Option ReviewDisplay :=
  (udb.find? (fun u => u.id == r.user_id)).map (fun u =>
    { rating := r.rating, review_text := r.review_text,
      timestamp := r.timestamp, username := u.username })

/-- The selection and join steps of `get_museum_reviews` before ordering:
`WHERE r.museum_key = ?` over the table in rowid order, then
`JOIN users u ON r.user_id = u.id`. -/
def museum_reviews_joined (udb : UsersDB) (rdb : ReviewsDB) (museum_key : String) :
    List ReviewDisplay :=
  (rdb.filter (fun r => r.museum_key == museum_key)).filterMap (join_username udb)

/-- Embedding of `get_museum_reviews` (app.py lines 473-486).  The query ends
in `ORDER BY r.timestamp DESC` with no secondary sort key, and SQLite leaves
the relative order of rows whose ORDER BY keys are equal unspecified.  The
embedding is therefore the relation admitting every result the database may
return for the query: any permutation of the selected-and-joined rows that is
sorted by timestamp descending. -/
def get_museum_reviews (udb : UsersDB) (rdb : ReviewsDB) (museum_key : String)
    (result : List ReviewDisplay) : Prop :=
  result.Perm (museum_reviews_joined udb rdb museum_key) ∧
  result.Pairwise (fun a b => b.timestamp ≤ a.timestamp)

/-- Insert a row into a timestamp-descending list in front of the first
strictly older row.  This is not part of the embedding of the query — it is
one admissible implementation of its ORDER BY contract, used below to show
that `get_museum_reviews` always admits a result. -/
def insert_ts_desc (x : ReviewDisplay) : List ReviewDisplay → List ReviewDisplay
  | [] => [x]
  | y :: ys => if y.timestamp < x.timestamp then x :: y :: ys else y :: insert_ts_desc x ys

/-- Insertion sort by timestamp descending; one admissible implementation of
the ORDER BY contract (see `insert_ts_desc`). -/
def order_by_timestamp_desc (l : List ReviewDisplay) : List ReviewDisplay :=
  l.foldl (fun acc x => insert_ts_desc x acc) []

/-- The `wishlist_status` table: one row per `(user_id, museum_key)` primary
key holding the `is_visited` integer. -/
abbrev WishDB := List ((Nat × String) × Int)

/-- The `INSERT OR REPLACE` statement of `toggle_wishlist_status`: any
existing row with the same primary key is replaced by the new one. -/
def insert_or_replace (db : WishDB) (key : Nat × String) (v : Int) : WishDB :=
  (key, v) :: db.filter (fun p => p.1 ≠ key)

/-- Embedding of `get_wishlist_status` (app.py lines 499-509): the stored
`is_visited` value, defaulting to `0` when no row exists. -/
def get_wishlist_status (db : WishDB) (user_id : Nat) (museum_key : String) : Int :=
  match db.lookup (user_id, museum_key) with
  | some v => v
  | none => 0

/-- Embedding of `toggle_wishlist_status` (app.py lines 511-524): read the
current status, flip it (`1` exactly when the current value is `0`), upsert
the row and return the new value. -/
def toggle_wishlist_status (db : WishDB) (user_id : Nat) (museum_key : String) : WishDB × Int :=
  let current_status := get_wishlist_status db user_id museum_key
  let new_status : Int := if current_status = 0 then 1 else 0
  (insert_or_replace db (user_id, museum_key) new_status, new_status)

/-- A concrete stored quiz used by several concrete instances below: the
fallback quiz for the Indian Museum, tagged with its catalog key. -/
def exampleStoredQuiz : StoredQuiz :=
  { quiz_title := (fallback_quiz "Indian Museum" "Kolkata").quiz_title,
    questions := (fallback_quiz "Indian Museum" "Kolkata").questions,
    museum_key := "indian_museum_kolkata" }

/-- Reading a `wishlist_status` row back right after an upsert yields the
upserted value. -/
theorem get_wishlist_status_insert (db : WishDB) (u : Nat) (k : String) (v : Int) :
    get_wishlist_status (insert_or_replace db (u, k) v) u k = v := by
  simp [get_wishlist_status, insert_or_replace, List.lookup]

/-- C3: the fallback quiz produced on any generation failure has exactly 5
questions, each question has exactly 4 answer-option strings, and each
question's correct-answer string is textually equal to one of its 4 options,
for every museum name and city it is instantiated with. -/
theorem fallback_quiz_contract (museum_name museum_city : String) :
    (fallback_quiz museum_name museum_city).questions.length = 5 ∧
    ((fallback_quiz museum_name museum_city).questions.all
      (fun q => q.options.length == 4 && q.options.contains q.answer)) = true := by
  refine ⟨rfl, ?_⟩
  simp [fallback_quiz, List.all, List.contains]

/-- C5: `toggle_wishlist_status` is an involution on the stored visited
status: starting from any table whose stored status for `(u, k)` is the
boolean `0` or `1` the schema assigns it, each of two consecutive toggles
returns exactly the new value it just stored, and after the two toggles the
stored status is back to its original value. -/
theorem toggle_wishlist_status_involution (db : WishDB) (u : Nat) (k : String)
    (h : get_wishlist_status db u k = 0 ∨ get_wishlist_status db u k = 1) :
    (toggle_wishlist_status db u k).2
        = get_wishlist_status (toggle_wishlist_status db u k).1 u k ∧
    (toggle_wishlist_status (toggle_wishlist_status db u k).1 u k).2
        = get_wishlist_status
            (toggle_wishlist_status (toggle_wishlist_status db u k).1 u k).1 u k ∧
    get_wishlist_status (toggle_wishlist_status (toggle_wishlist_status db u k).1 u k).1 u k
        = get_wishlist_status db u k := by
  rcases h with h | h <;>
    simp [toggle_wishlist_status, get_wishlist_status_insert, h]

/-- C5 witness: concrete run of the involution starting from the empty table
(no row, status `0`). -/
theorem toggle_wishlist_status_involution_witness :
    (get_wishlist_status [] 1 "csmvs_mumbai" = 0 ∨ get_wishlist_status [] 1 "csmvs_mumbai" = 1) ∧
    ((toggle_wishlist_status [] 1 "csmvs_mumbai").2
        = get_wishlist_status (toggle_wishlist_status [] 1 "csmvs_mumbai").1 1 "csmvs_mumbai" ∧
     (toggle_wishlist_status (toggle_wishlist_status [] 1 "csmvs_mumbai").1 1 "csmvs_mumbai").2
        = get_wishlist_status
            (toggle_wishlist_status
              (toggle_wishlist_status [] 1 "csmvs_mumbai").1 1 "csmvs_mumbai").1 1 "csmvs_mumbai" ∧
     get_wishlist_status
        (toggle_wishlist_status
          (toggle_wishlist_status [] 1 "csmvs_mumbai").1 1 "csmvs_mumbai").1 1 "csmvs_mumbai"
        = get_wishlist_status [] 1 "csmvs_mumbai") :=
  ⟨Or.inl rfl, toggle_wishlist_status_involution [] 1 "csmvs_mumbai" (Or.inl rfl)⟩

/-- C6 counterexample: a logout on a session holding a stored quiz leaves the
quiz in the session — the claim that after logout the session holds no
in-flight quiz attempt is false at this input. -/
theorem logout_counterexample :
    (logout ⟨some "alice", some exampleStoredQuiz⟩).1.current_quiz = some exampleStoredQuiz ∧
    (logout ⟨some "alice", some exampleStoredQuiz⟩).1.current_quiz ≠ none := by
  exact ⟨rfl, by simp [logout]⟩

/-- C6 (amended): a logout request removes the logged-in username from the
session and flashes the logout notice, but it does not destroy the rest of
the session — a stored quiz attempt is left exactly as it was. -/
theorem logout_clears_user_only (s : Session) :
    (logout s).1.user = none ∧
    (logout s).1.current_quiz = s.current_quiz ∧
    (logout s).2 = ⟨"You have been logged out", "success"⟩ :=
  ⟨rfl, rfl, rfl⟩

/-- C1 counterexample: when `genai.Client()` raises (the generator client is
unreachable) on a valid museum key, no fallback quiz is substituted or
stored — the session keeps holding no quiz and the user is redirected with an
error notice — so the claim that any generator failure results in the
fallback quiz being stored is false at this input. -/
theorem quiz_generation_fallback_counterexample :
    (quizGet "indian_museum_kolkata" GenOutcome.clientInitFailure
        ⟨some "alice", none⟩).1.current_quiz = none ∧
    (quizGet "indian_museum_kolkata" GenOutcome.clientInitFailure ⟨some "alice", none⟩).2
      = .redirect_quiz_selection
          [⟨"Generating a new AI Quiz for Indian Museum...", "info"⟩,
           ⟨"Could not generate quiz. Please try again.", "error"⟩] := by
  exact ⟨by decide, by decide⟩

/-- C1 (amended): on a valid museum key, a failure of the external generation
call — the content request raising, malformed JSON, or a returned question
count different from 5 — is substituted by the deterministic fallback quiz,
which is stored in the session tagged with that museum key, overwriting any
prior stored quiz; but a failure to initialise the generator client yields no
fallback: the handler responds with an error notice and a redirect to quiz
selection (not a hard error) and leaves the session, including any prior
stored quiz, unchanged. -/
theorem quiz_generation_fallback (key : String) (md : MuseumInfo) (gen : GenOutcome) (s : Session)
    (hmd : MUSEUM_DATA.lookup key = some md) :
    ((gen = .callFailure ∨ gen = .malformedJSON ∨
        (∃ d, gen = .ok d ∧ d.questions.length ≠ 5)) →
      quizGet key gen s =
        ({ s with current_quiz := some ⟨(fallback_quiz md.name md.city).quiz_title,
                                        (fallback_quiz md.name md.city).questions, key⟩ },
         .render_quiz_form md.name (fallback_quiz md.name md.city).quiz_title
           (fallback_quiz md.name md.city).questions key
           [⟨"Generating a new AI Quiz for " ++ md.name ++ "...", "info"⟩])) ∧
    (gen = .clientInitFailure →
      quizGet key gen s =
        (s, .redirect_quiz_selection
          [⟨"Generating a new AI Quiz for " ++ md.name ++ "...", "info"⟩,
           ⟨"Could not generate quiz. Please try again.", "error"⟩])) := by
  constructor
  · rintro (rfl | rfl | ⟨d, rfl, hd⟩)
    · simp [quizGet, hmd, generate_quiz, fallback_quiz]
    · simp [quizGet, hmd, generate_quiz, fallback_quiz]
    · simp [quizGet, hmd, generate_quiz, fallback_quiz, hd]
  · rintro rfl
    simp [quizGet, hmd, generate_quiz]

/-- C1 witness: a malformed-JSON failure on a session already holding a quiz
for another museum stores the fallback quiz tagged with the requested key,
overwriting the prior quiz. -/
theorem quiz_generation_fallback_witness :
    quizGet "csmvs_mumbai" GenOutcome.malformedJSON ⟨some "alice", some exampleStoredQuiz⟩ =
      ({ user := some "alice",
         current_quiz := some
           ⟨(fallback_quiz "Chhatrapati Shivaji Maharaj Vastu Sangrahalaya" "Mumbai").quiz_title,
            (fallback_quiz "Chhatrapati Shivaji Maharaj Vastu Sangrahalaya" "Mumbai").questions,
            "csmvs_mumbai"⟩ },
       .render_quiz_form "Chhatrapati Shivaji Maharaj Vastu Sangrahalaya"
         (fallback_quiz "Chhatrapati Shivaji Maharaj Vastu Sangrahalaya" "Mumbai").quiz_title
         (fallback_quiz "Chhatrapati Shivaji Maharaj Vastu Sangrahalaya" "Mumbai").questions
         "csmvs_mumbai"
         [⟨"Generating a new AI Quiz for Chhatrapati Shivaji Maharaj Vastu Sangrahalaya...",
           "info"⟩]) :=
  (quiz_generation_fallback "csmvs_mumbai"
      ⟨"Chhatrapati Shivaji Maharaj Vastu Sangrahalaya", "Mumbai"⟩
      GenOutcome.malformedJSON ⟨some "alice", some exampleStoredQuiz⟩ (by decide)).1
    (Or.inr (Or.inl rfl))

/-- C2 counterexample: a scoring submission for a valid museum key different
from the stored quiz's key redirects with the mismatch notice but leaves the
stored quiz in the session — the claim that afterwards the session holds no
stored quiz is false at this input. -/
theorem quiz_post_mismatch_counterexample :
    (quizPost "csmvs_mumbai" [] ⟨some "alice", some exampleStoredQuiz⟩).1.current_quiz
      = some exampleStoredQuiz ∧
    (quizPost "csmvs_mumbai" [] ⟨some "alice", some exampleStoredQuiz⟩).1.current_quiz
      ≠ none := by
  exact ⟨by decide, by decide⟩

/-- C2 (amended): a scoring submission on a valid museum key with no quiz
stored for the session, or with a stored quiz tagged with a different museum
key, fails with the session-mismatch notice and a redirect to quiz selection,
performs no scoring, and leaves the session exactly as it was — in particular
a mismatched stored quiz remains stored (it is not deleted). -/
theorem quiz_post_mismatch (key : String) (md : MuseumInfo) (form : List (String × String))
    (s : Session) (hmd : MUSEUM_DATA.lookup key = some md)
    (h : s.current_quiz = none ∨ ∃ sq, s.current_quiz = some sq ∧ sq.museum_key ≠ key) :
    quizPost key form s =
      (s, .redirect_quiz_selection
        [⟨"Quiz session expired or mismatched. Please generate a new quiz.", "error"⟩]) := by
  rcases h with h | ⟨sq, h, hk⟩
  · simp [quizPost, hmd, h]
  · simp [quizPost, hmd, h, hk]

/-- A fold that adds one for every element satisfying `p` counts the elements
satisfying `p`. -/
theorem foldl_count {α : Type} (p : α → Bool) :
    ∀ (l : List α) (n : Nat),
      l.foldl (fun acc x => if p x then acc + 1 else acc) n = n + l.countP p := by
  intro l
  induction l with
  | nil => simp
  | cons x xs ih =>
      intro n
      by_cases h : p x <;> simp [h, ih, List.countP_cons]
      omega

/-- The scoring loop produces one result record per question. -/
theorem quiz_results_length (qs : List Question) (form : List (String × String)) :
    (quiz_results qs form).length = qs.length := by
  simp [quiz_results]

/-- The result record at position `i` is exactly the record the loop body
builds from question `i` and the form value at key `q_i`. -/
theorem quiz_results_getElem (qs : List Question) (form : List (String × String)) (i : Nat)
    (q : Question) (hq : qs[i]? = some q) :
    (quiz_results qs form)[i]? = some (result_record i q form) := by
  simp [quiz_results, List.getElem?_map, List.getElem?_enum, hq]

/-- The `score` accumulator tallies exactly the questions whose submitted
answer string equals the stored answer string. -/
theorem quiz_score_eq_countP (qs : List Question) (form : List (String × String)) :
    quiz_score qs form
      = qs.enum.countP (fun p => form.lookup ("q_" ++ toString p.1) == some p.2.answer) := by
  simp [quiz_score, foldl_count, quiz_results, List.countP_map]
  rfl

/-- C4: for every stored quiz and submission on the matching museum key,
scoring compares, for each question position in original order, the submitted
answer string at that position with the question's correct-answer string
using exact string equality only (an absent field never matches); the score
is the tally of exact matches; a question whose answer field is omitted is
marked incorrect with an absent user answer, and each result record depends
only on its own question and its own form field; each record carries the
question text, the submitted answer, the correct answer, the correctness
boolean and the question's options list. -/
theorem quiz_scoring_exact (key : String) (md : MuseumInfo) (form : List (String × String))
    (s : Session) (sq : StoredQuiz)
    (hmd : MUSEUM_DATA.lookup key = some md)
    (hq : s.current_quiz = some sq) (hk : sq.museum_key = key) :
    quizPost key form s =
      ({ s with current_quiz := none },
       .render_quiz_results md.name sq.quiz_title (quiz_score sq.questions form)
         sq.questions.length (quiz_results sq.questions form) key) ∧
    (quiz_results sq.questions form).length = sq.questions.length ∧
    quiz_score sq.questions form
      = sq.questions.enum.countP
          (fun p => form.lookup ("q_" ++ toString p.1) == some p.2.answer) ∧
    (∀ i q, sq.questions[i]? = some q →
      (quiz_results sq.questions form)[i]? = some
        { question := q.question,
          user_answer := form.lookup ("q_" ++ toString i),
          correct_answer := q.answer,
          is_correct := form.lookup ("q_" ++ toString i) == some q.answer,
          options := q.options } ∧
      ((form.lookup ("q_" ++ toString i) == some q.answer) = true
        ↔ form.lookup ("q_" ++ toString i) = some q.answer) ∧
      (form.lookup ("q_" ++ toString i) = none →
        (result_record i q form).is_correct = false ∧
        (result_record i q form).user_answer = none)) := by
  refine ⟨?_, quiz_results_length sq.questions form, quiz_score_eq_countP sq.questions form, ?_⟩
  · simp [quizPost, hmd, hq, hk]
  · intro i q hqi
    refine ⟨quiz_results_getElem sq.questions form i q hqi, beq_iff_eq, ?_⟩
    intro hnone
    simp [result_record, hnone]

/-- C4 witness: scoring the stored fallback quiz for the Indian Museum with a
submission answering only the first and third questions — the third with a
case-mismatched string — where all hypotheses hold at this concrete input. -/
theorem quiz_scoring_exact_witness :
    quizPost "indian_museum_kolkata" [("q_0", "Kolkata"), ("q_2", "asia")]
        ⟨some "alice", some exampleStoredQuiz⟩ =
      ({ user := some "alice", current_quiz := none },
       .render_quiz_results "Indian Museum" exampleStoredQuiz.quiz_title
         (quiz_score exampleStoredQuiz.questions [("q_0", "Kolkata"), ("q_2", "asia")])
         exampleStoredQuiz.questions.length
         (quiz_results exampleStoredQuiz.questions [("q_0", "Kolkata"), ("q_2", "asia")])
         "indian_museum_kolkata") :=
  (quiz_scoring_exact "indian_museum_kolkata" ⟨"Indian Museum", "Kolkata"⟩
    [("q_0", "Kolkata"), ("q_2", "asia")] ⟨some "alice", some exampleStoredQuiz⟩
    exampleStoredQuiz (by decide) rfl rfl).1

/-- C2 witness: concrete mismatched scoring attempt, with the stored quiz
tagged for the Indian Museum and the submission targeting the CSMVS key. -/
theorem quiz_post_mismatch_witness :
    quizPost "csmvs_mumbai" [("q_0", "Mumbai")] ⟨some "alice", some exampleStoredQuiz⟩ =
      (⟨some "alice", some exampleStoredQuiz⟩,
       .redirect_quiz_selection
         [⟨"Quiz session expired or mismatched. Please generate a new quiz.", "error"⟩]) :=
  quiz_post_mismatch "csmvs_mumbai" ⟨"Chhatrapati Shivaji Maharaj Vastu Sangrahalaya", "Mumbai"⟩
    [("q_0", "Mumbai")] ⟨some "alice", some exampleStoredQuiz⟩ (by decide)
    (Or.inr ⟨exampleStoredQuiz, rfl, by decide⟩)

/-- A `find?` hit and an `any` hit over the username predicate coincide: the
pre-emptive existence check and the uniqueness constraint observe the same
condition. -/
theorem user_exists_eq_any (db : UsersDB) (u : String) :
    user_exists db u = db.any (fun r => r.username == u) := by
  induction db with
  | nil => rfl
  | cons x xs ih =>
      simp only [user_exists, get_user, List.find?_cons, List.any_cons] at *
      cases h : (x.username == u) <;> simp [h, ih]

/-- A concrete user row used by concrete instances below. -/
def exampleUser : UserRow :=
  { id := 1, username := "alice", email := "alice@example.com",
    password_hash := "pbkdf2-sha256$hunter2" }

/-- C7: for every signup whose (stripped) username already exists — whether
the duplicate is visible to the pre-emptive `user_exists` check or only to
the uniqueness constraint at insert time — the users table is left exactly as
it was (no second row is ever created), and whenever the other field
validations pass, so that the duplicate is what is detected, the caller is
shown the same duplicate-username error notice on both detection paths. -/
theorem signup_duplicate_username (db_check db_insert : UsersDB)
    (username email password confirm_password : String)
    (hdup : user_exists db_check (pyStrip username) = true ∨
            user_exists db_insert (pyStrip username) = true) :
    (signup db_check db_insert username email password confirm_password).1 = db_insert ∧
    (pyStrip username ≠ "" → pyStrip email ≠ "" → password ≠ "" →
      password = confirm_password → ¬ password.length < 6 →
      (signup db_check db_insert username email password confirm_password).2
        = .rerender ⟨"Username already exists", "error"⟩) := by
  constructor
  · unfold signup
    dsimp only
    split_ifs with h1 h2 h5 h6
    · rfl
    · rfl
    · rfl
    · rfl
    · have h3 : db_insert.any (fun r => r.username == pyStrip username) = true := by
        rw [← user_exists_eq_any]
        rcases hdup with h | h
        · exact absurd h h2
        · exact h
      simp [create_user, h3]
  · intro hu he hp hpc hlen
    unfold signup
    dsimp only
    split_ifs with h1 h2 h5
    · rcases h1 with h | h | h
      exacts [absurd h hu, absurd h he, absurd h hp]
    · rfl
    · exact absurd hpc h5
    · have h3 : db_insert.any (fun r => r.username == pyStrip username) = true := by
        rw [← user_exists_eq_any]
        rcases hdup with h | h
        · exact absurd h h2
        · exact h
      simp [create_user, h3]

/-- C7 witness: the same duplicate signup observed once sequentially (the
pre-emptive check sees the row) and once under the modelled race (only the
insert-time table holds the row), with every hypothesis discharged at these
concrete inputs; in both runs the table is unchanged and the flash notice is
the same. -/
theorem signup_duplicate_username_witness :
    user_exists [exampleUser] (pyStrip "alice") = true ∧
    (signup [exampleUser] [exampleUser] "alice" "bob@example.com" "secret99" "secret99").1
      = [exampleUser] ∧
    (signup [exampleUser] [exampleUser] "alice" "bob@example.com" "secret99" "secret99").2
      = .rerender ⟨"Username already exists", "error"⟩ ∧
    (signup [] [exampleUser] "alice" "bob@example.com" "secret99" "secret99").1
      = [exampleUser] ∧
    (signup [] [exampleUser] "alice" "bob@example.com" "secret99" "secret99").2
      = .rerender ⟨"Username already exists", "error"⟩ :=
  ⟨by decide,
   (signup_duplicate_username [exampleUser] [exampleUser] "alice" "bob@example.com"
      "secret99" "secret99" (Or.inl (by decide))).1,
   (signup_duplicate_username [exampleUser] [exampleUser] "alice" "bob@example.com"
      "secret99" "secret99" (Or.inl (by decide))).2 (by decide) (by decide) (by decide)
      rfl (by decide),
   (signup_duplicate_username [] [exampleUser] "alice" "bob@example.com"
      "secret99" "secret99" (Or.inr (by decide))).1,
   (signup_duplicate_username [] [exampleUser] "alice" "bob@example.com"
      "secret99" "secret99" (Or.inr (by decide))).2 (by decide) (by decide) (by decide)
      rfl (by decide)⟩

/-- C8: the review branch rejects with the invalid-review notice and persists
no row when the review text is empty or the computed rating lies outside
[1, 5], and appends exactly one timestamped row (and flashes success) when
the text is non-empty and the rating lies in [1, 5]. -/
theorem add_review_validation (db : ReviewsDB) (now user_id : Nat) (museum_key : String)
    (review_text : String) (rating_field : Option String) :
    ((review_text = "" ∨ form_rating rating_field < 1 ∨ 5 < form_rating rating_field) →
      museum_profile_post_review db now user_id museum_key review_text rating_field
        = (db, ⟨"Invalid review or rating submitted.", "error"⟩)) ∧
    (review_text ≠ "" → 1 ≤ form_rating rating_field → form_rating rating_field ≤ 5 →
      museum_profile_post_review db now user_id museum_key review_text rating_field
        = (db ++ [{ id := next_review_id db, user_id := user_id, museum_key := museum_key,
                    rating := form_rating rating_field, review_text := review_text,
                    timestamp := now }],
           ⟨"Your review has been posted!", "success"⟩)) := by
  constructor
  · intro h
    have hcond : ¬ (review_text ≠ "" ∧ 1 ≤ form_rating rating_field ∧
        form_rating rating_field ≤ 5) := by
      rintro ⟨ht, h1, h5⟩
      rcases h with h | h | h
      · exact ht h
      · omega
      · omega
    simp [museum_profile_post_review, hcond]
  · intro ht h1 h5
    have hcond : review_text ≠ "" ∧ 1 ≤ form_rating rating_field ∧
        form_rating rating_field ≤ 5 := ⟨ht, h1, h5⟩
    simp [museum_profile_post_review, add_museum_review, hcond]

/-- C8 witness: boundary instances on concrete inputs — rating 0 and rating 6
(and an empty text) are rejected with the table untouched, rating 1 and
rating 5 are accepted and append exactly one timestamped row. -/
theorem add_review_validation_witness :
    museum_profile_post_review [] 7 1 "csmvs_mumbai" "Great museum" (some "0")
      = ([], ⟨"Invalid review or rating submitted.", "error"⟩) ∧
    museum_profile_post_review [] 7 1 "csmvs_mumbai" "Great museum" (some "6")
      = ([], ⟨"Invalid review or rating submitted.", "error"⟩) ∧
    museum_profile_post_review [] 7 1 "csmvs_mumbai" "" (some "3")
      = ([], ⟨"Invalid review or rating submitted.", "error"⟩) ∧
    museum_profile_post_review [] 7 1 "csmvs_mumbai" "Great museum" (some "1")
      = ([] ++ [{ id := next_review_id [], user_id := 1, museum_key := "csmvs_mumbai",
                  rating := form_rating (some "1"), review_text := "Great museum",
                  timestamp := 7 }],
         ⟨"Your review has been posted!", "success"⟩) ∧
    museum_profile_post_review [] 7 1 "csmvs_mumbai" "Great museum" (some "5")
      = ([] ++ [{ id := next_review_id [], user_id := 1, museum_key := "csmvs_mumbai",
                  rating := form_rating (some "5"), review_text := "Great museum",
                  timestamp := 7 }],
         ⟨"Your review has been posted!", "success"⟩) :=
  ⟨(add_review_validation [] 7 1 "csmvs_mumbai" "Great museum" (some "0")).1
      (Or.inr (Or.inl (by decide))),
   (add_review_validation [] 7 1 "csmvs_mumbai" "Great museum" (some "6")).1
      (Or.inr (Or.inr (by decide))),
   (add_review_validation [] 7 1 "csmvs_mumbai" "" (some "3")).1 (Or.inl rfl),
   (add_review_validation [] 7 1 "csmvs_mumbai" "Great museum" (some "1")).2
      (by decide) (by decide) (by decide),
   (add_review_validation [] 7 1 "csmvs_mumbai" "Great museum" (some "5")).2
      (by decide) (by decide) (by decide)⟩

/-- C10: a review submission whose rating form field is absent, or present
with a value Python's `int` cannot parse (the empty string included), is
treated as rating 0, rejected with the invalid-review notice, and the
reviews table is left unchanged — no row is created. -/
theorem unparseable_rating_rejected (db : ReviewsDB) (now user_id : Nat) (museum_key : String)
    (review_text : String) (rating_field : Option String)
    (h : ∀ s, rating_field = some s → pythonInt? s = none) :
    form_rating rating_field = 0 ∧
    museum_profile_post_review db now user_id museum_key review_text rating_field
      = (db, ⟨"Invalid review or rating submitted.", "error"⟩) := by
  have h0 : form_rating rating_field = 0 := by
    cases rating_field with
    | none => rfl
    | some s =>
        by_cases hs : s = ""
        · simp [form_rating, hs]
        · simp [form_rating, hs, h s rfl]
  refine ⟨h0, ?_⟩
  have hcond : ¬ (review_text ≠ "" ∧ 1 ≤ form_rating rating_field ∧
      form_rating rating_field ≤ 5) := by
    rw [h0]
    rintro ⟨-, h1, -⟩
    omega
  simp [museum_profile_post_review, hcond]

/-- C10 witness: an absent rating field and the unparseable strings "abc" and
"3.5" are all treated as rating 0 and rejected without touching the table. -/
theorem unparseable_rating_rejected_witness :
    (form_rating none = 0 ∧
      museum_profile_post_review [] 7 1 "csmvs_mumbai" "Great museum" none
        = ([], ⟨"Invalid review or rating submitted.", "error"⟩)) ∧
    (form_rating (some "abc") = 0 ∧
      museum_profile_post_review [] 7 1 "csmvs_mumbai" "Great museum" (some "abc")
        = ([], ⟨"Invalid review or rating submitted.", "error"⟩)) ∧
    (form_rating (some "3.5") = 0 ∧
      museum_profile_post_review [] 7 1 "csmvs_mumbai" "Great museum" (some "3.5")
        = ([], ⟨"Invalid review or rating submitted.", "error"⟩)) :=
  ⟨unparseable_rating_rejected [] 7 1 "csmvs_mumbai" "Great museum" none
      (fun s hs => by cases hs),
   unparseable_rating_rejected [] 7 1 "csmvs_mumbai" "Great museum" (some "abc")
      (fun s hs => by cases hs; decide),
   unparseable_rating_rejected [] 7 1 "csmvs_mumbai" "Great museum" (some "3.5")
      (fun s hs => by cases hs; decide)⟩

/-- Joined review lists sorted newest-first. -/
abbrev TsSortedDesc (l : List ReviewDisplay) : Prop :=
  l.Pairwise (fun a b => b.timestamp ≤ a.timestamp)

/-- Inserting into the sorter only adds the inserted row. -/
theorem insert_ts_desc_perm (x : ReviewDisplay) (l : List ReviewDisplay) :
    (insert_ts_desc x l).Perm (x :: l) := by
  induction l with
  | nil => exact List.Perm.refl _
  | cons y ys ih =>
      by_cases h : y.timestamp < x.timestamp
      · simp only [insert_ts_desc, if_pos h]
        exact List.Perm.refl _
      · simp only [insert_ts_desc, if_neg h]
        exact (ih.cons y).trans (List.Perm.swap x y ys)

/-- The sorter permutes its input. -/
theorem foldl_insert_ts_desc_perm (l : List ReviewDisplay) :
    ∀ acc : List ReviewDisplay,
      (l.foldl (fun a x => insert_ts_desc x a) acc).Perm (acc ++ l) := by
  induction l with
  | nil => intro acc; simp
  | cons x xs ih =>
      intro acc
      rw [List.foldl_cons]
      refine (ih (insert_ts_desc x acc)).trans ?_
      refine ((insert_ts_desc_perm x acc).append_right xs).trans ?_
      exact List.perm_middle.symm

/-- Insertion keeps the list sorted newest-first. -/
theorem insert_ts_desc_sorted (x : ReviewDisplay) (l : List ReviewDisplay)
    (h : TsSortedDesc l) : TsSortedDesc (insert_ts_desc x l) := by
  induction l with
  | nil => simp [insert_ts_desc]
  | cons y ys ih =>
      rcases List.pairwise_cons.mp h with ⟨hy, hys⟩
      by_cases hlt : y.timestamp < x.timestamp
      · simp only [insert_ts_desc, if_pos hlt]
        refine List.pairwise_cons.mpr ⟨?_, h⟩
        intro z hz
        rcases List.mem_cons.mp hz with rfl | hz2
        · omega
        · have := hy z hz2
          omega
      · simp only [insert_ts_desc, if_neg hlt]
        refine List.pairwise_cons.mpr ⟨?_, ih hys⟩
        intro z hz
        rcases List.mem_cons.mp ((insert_ts_desc_perm x ys).mem_iff.mp hz) with rfl | hz2
        · omega
        · exact hy z hz2

/-- The sorter's accumulator stays sorted newest-first. -/
theorem foldl_insert_ts_desc_sorted (l : List ReviewDisplay) :
    ∀ acc : List ReviewDisplay, TsSortedDesc acc →
      TsSortedDesc (l.foldl (fun a x => insert_ts_desc x a) acc) := by
  induction l with
  | nil => intro acc h; exact h
  | cons x xs ih => intro acc h; exact ih _ (insert_ts_desc_sorted x acc h)

/-- A `filterMap` whose function hits on every element drops nothing. -/
theorem filterMap_length_of_isSome {α β : Type} (f : α → Option β) :
    ∀ l : List α, (∀ a ∈ l, (f a).isSome) → (l.filterMap f).length = l.length := by
  intro l
  induction l with
  | nil => intro _; rfl
  | cons x xs ih =>
      intro h
      rcases Option.isSome_iff_exists.mp (h x (List.mem_cons_self x xs)) with ⟨b, hb⟩
      simp [List.filterMap_cons, hb, ih (fun a ha => h a (List.mem_cons_of_mem x ha))]

/-- A concrete reviews table used by the C9 instances: three reviews for the
CSMVS key, two of them with equal timestamps, plus one for another museum. -/
def exampleReviews : ReviewsDB :=
  [ { id := 1, user_id := 1, museum_key := "csmvs_mumbai", rating := 5,
      review_text := "Loved it", timestamp := 3 },
    { id := 2, user_id := 1, museum_key := "indian_museum_kolkata", rating := 4,
      review_text := "Nice", timestamp := 4 },
    { id := 3, user_id := 1, museum_key := "csmvs_mumbai", rating := 3,
      review_text := "Crowded", timestamp := 5 },
    { id := 4, user_id := 1, museum_key := "csmvs_mumbai", rating := 4,
      review_text := "Great art", timestamp := 5 } ]

/-- A result for `exampleReviews` that the ORDER BY contract admits, in which
the two reviews sharing timestamp 5 appear in the opposite of insertion
order. -/
def swappedTieResult : List ReviewDisplay :=
  [ { rating := 4, review_text := "Great art", timestamp := 5, username := "alice" },
    { rating := 3, review_text := "Crowded", timestamp := 5, username := "alice" },
    { rating := 5, review_text := "Loved it", timestamp := 3, username := "alice" } ]

/-- A result for `exampleReviews` that the ORDER BY contract admits, with the
tied rows in insertion order. -/
def stableTieResult : List ReviewDisplay :=
  [ { rating := 3, review_text := "Crowded", timestamp := 5, username := "alice" },
    { rating := 4, review_text := "Great art", timestamp := 5, username := "alice" },
    { rating := 5, review_text := "Loved it", timestamp := 3, username := "alice" } ]

/-- C9 counterexample: on a concrete table with two equal-timestamp reviews
for the same museum, the query's contract (`ORDER BY r.timestamp DESC` with
no secondary sort key, whose tie order SQLite leaves unspecified) admits a
result whose tied rows are not in insertion order — so the claim that ties
are broken by insertion order is not established by the program and fails for
this admitted result. -/
theorem get_museum_reviews_tie_counterexample :
    get_museum_reviews [exampleUser] exampleReviews "csmvs_mumbai" swappedTieResult ∧
    swappedTieResult.filter (fun r => r.timestamp == 5)
      ≠ (museum_reviews_joined [exampleUser] exampleReviews "csmvs_mumbai").filter
          (fun r => r.timestamp == 5) := by
  refine ⟨⟨?_, ?_⟩, ?_⟩ <;> decide

/-- C9 (amended): for every museum key, every result the query may return
consists of exactly the reviews for that key joined with their users'
usernames (the same rows with the same multiplicities, and — when every
review's `user_id` resolves, as the foreign key guarantees — nothing dropped
by the join), ordered by timestamp descending; the relative order of reviews
with equal timestamps is not specified by the program.  Such a result always
exists. -/
theorem get_museum_reviews_contract (udb : UsersDB) (rdb : ReviewsDB) (museum_key : String) :
    (∃ result, get_museum_reviews udb rdb museum_key result) ∧
    (∀ result, get_museum_reviews udb rdb museum_key result →
      result.Pairwise (fun a b => b.timestamp ≤ a.timestamp) ∧
      (∀ d : ReviewDisplay,
        result.count d = (museum_reviews_joined udb rdb museum_key).count d) ∧
      result.length = (museum_reviews_joined udb rdb museum_key).length ∧
      ((∀ r ∈ rdb, ∃ u ∈ udb, u.id = r.user_id) →
        result.length = (rdb.filter (fun r => r.museum_key == museum_key)).length)) := by
  constructor
  · refine ⟨order_by_timestamp_desc (museum_reviews_joined udb rdb museum_key), ?_, ?_⟩
    · exact (foldl_insert_ts_desc_perm _ []).trans (by simp)
    · exact foldl_insert_ts_desc_sorted _ [] List.Pairwise.nil
  · rintro result ⟨hperm, hsorted⟩
    refine ⟨hsorted, fun d => hperm.count_eq d, hperm.length_eq, ?_⟩
    intro h
    rw [hperm.length_eq]
    simp only [museum_reviews_joined]
    apply filterMap_length_of_isSome
    intro r hr
    rcases h r (List.mem_of_mem_filter hr) with ⟨u, hu, hid⟩
    have hfind : (udb.find? (fun u => u.id == r.user_id)).isSome :=
      List.find?_isSome.mpr ⟨u, hu, by simp [hid]⟩
    rcases Option.isSome_iff_exists.mp hfind with ⟨w, hw⟩
    simp [join_username, hw]

/-- C9 witness: the amended contract applied to a concrete admitted result on
the tied example table, the admission and foreign-key hypotheses discharged
by evaluation. -/
theorem get_museum_reviews_contract_witness :
    stableTieResult.Pairwise (fun a b => b.timestamp ≤ a.timestamp) ∧
    stableTieResult.count ⟨3, "Crowded", 5, "alice"⟩
      = (museum_reviews_joined [exampleUser] exampleReviews "csmvs_mumbai").count
          ⟨3, "Crowded", 5, "alice"⟩ ∧
    stableTieResult.length
      = (exampleReviews.filter (fun r => r.museum_key == "csmvs_mumbai")).length :=
  have h := (get_museum_reviews_contract [exampleUser] exampleReviews "csmvs_mumbai").2
    stableTieResult ⟨by decide, by decide⟩
  ⟨h.1, h.2.1 ⟨3, "Crowded", 5, "alice"⟩, h.2.2.2 (by decide)⟩
